import Mathlib

/-!
Verification development for the HPKE core (draft-irtf-cfrg-hpke-06) of the
`hpke` package.  Bytes are modelled as `List Nat`, fallible operations return
`Except HpkeError`, and the abstract collaborator primitives (KEM, KDF, AEAD)
are records of functions, mirroring the interfaces they are consumed through.

The file `hpke.go` is embedded definition by definition.  The parts of the
package living in its sibling files (suite registry, key schedule, AEAD
context, exporter) are modelled from the specification; each such definition
carries a doc comment saying so.
-/

namespace Hpke

/-- Errors of the HPKE core, one constructor per kind in the error taxonomy.
`kemError n` stands for an arbitrary error value produced by the KEM
collaborator, tagged so that propagation can be observed. -/
inductive HpkeError where
  | invalidSuite
  | invalidPSKInputs
  | exportTooLong
  | messageLimitReached
  | authFailure
  | kemError (code : Nat)
deriving DecidableEq

/-- Embeds `type Suite struct { KemID KemID; KdfID KdfID; AeadID AeadID }`
(hpke.go); the three 16-bit algorithm identifiers are modelled as `Nat`. -/
structure Suite where
  KemID : Nat
  KdfID : Nat
  AeadID : Nat
deriving DecidableEq

/-- Embeds `modeBase modeID = 0x00` (hpke.go). -/
def modeBase : Nat := 0x00

/-- Embeds `modePSK modeID = 0x01` (hpke.go). -/
def modePSK : Nat := 0x01

/-- Embeds `modeAuth modeID = 0x02` (hpke.go). -/
def modeAuth : Nat := 0x02

/-- Embeds `modeAuthPSK modeID = 0x03` (hpke.go). -/
def modeAuthPSK : Nat := 0x03

/-- Modelled from the spec: the suite registry (`isValid`, algs.go, not under
src/).  A Suite is valid iff all three IDs are known; the known primitives are
the five DHKEMs (P-256, P-384, P-521, X25519, X448), the three HKDFs
(SHA256/384/512) and the three AEADs (AES-128-GCM, AES-256-GCM,
ChaCha20Poly1305). -/
def Suite.isValid (s : Suite) : Bool :=
  [0x10, 0x11, 0x12, 0x20, 0x21].contains s.KemID &&
  [0x01, 0x02, 0x03].contains s.KdfID &&
  [0x01, 0x02, 0x03].contains s.AeadID

/-- Abstract KDF collaborator: `{ Nh, Extract(salt, ikm), Expand(prk, info, L) }`. -/
structure KDF where
  Nh : Nat
  extract : List Nat → List Nat → List Nat
  expand : List Nat → List Nat → Nat → List Nat

/-- Abstract AEAD collaborator:
`{ Nk, Nn, seal(key, nonce, pt, aad) → ct, open(key, nonce, ct, aad) → pt | AuthFailure }`. -/
structure AEAD where
  Nk : Nat
  Nn : Nat
  sealF : List Nat → List Nat → List Nat → List Nat → List Nat
  openF : List Nat → List Nat → List Nat → List Nat → Option (List Nat)

/-- Abstract KEM collaborator (`kem.AuthScheme`): encapsulation and
decapsulation, plus the authenticated variants.  Keys are nil-able interface
values in Go, hence `Option`. -/
structure KEMScheme where
  encapsulate : Option (List Nat) → Except HpkeError (List Nat × List Nat)
  authEncapsulate : Option (List Nat) → Option (List Nat) →
    Except HpkeError (List Nat × List Nat)
  decapsulate : Option (List Nat) → List Nat → Except HpkeError (List Nat)
  authDecapsulate : Option (List Nat) → List Nat → Option (List Nat) →
    Except HpkeError (List Nat)

/-- ASCII bytes of a label string. -/
def strBytes (s : String) : List Nat := s.toList.map Char.toNat

/-- Big-endian 16-bit encoding. -/
def be16 (n : Nat) : List Nat := [n / 256 % 256, n % 256]

/-- Embeds `suiteID = "HPKE" ‖ KemID(2) ‖ KdfID(2) ‖ AeadID(2)` (10 bytes). -/
def suiteIDBytes (s : Suite) : List Nat :=
  strBytes "HPKE" ++ be16 s.KemID ++ be16 s.KdfID ++ be16 s.AeadID

/-- Modelled from the spec: `LabeledExtract(salt, label, ikm) =
KDF.Extract(salt, "HPKE-06" ‖ suiteID ‖ label ‖ ikm)` (util.go, not under src/). -/
def labeledExtract (kdf : KDF) (sid salt label ikm : List Nat) : List Nat :=
  kdf.extract salt (strBytes "HPKE-06" ++ sid ++ label ++ ikm)

/-- Modelled from the spec: `LabeledExpand(prk, label, info, L) =
KDF.Expand(prk, "HPKE-06" ‖ BE16(L) ‖ suiteID ‖ label ‖ info, L)`
(util.go, not under src/). -/
def labeledExpand (kdf : KDF) (sid prk label info : List Nat) (L : Nat) : List Nat :=
  kdf.expand prk (strBytes "HPKE-06" ++ be16 L ++ sid ++ label ++ info) L

/-- Modelled from the spec: the PSK/mode consistency check performed at setup
(util.go, not under src/): `(len(psk)==0) == (len(pskID)==0)`, both empty in
Base/Auth, both non-empty in PSK/AuthPSK. -/
def pskInputsOK (mode : Nat) (psk pskID : List Nat) : Bool :=
  let gotPSK := !psk.isEmpty
  let gotPSKID := !pskID.isEmpty
  if gotPSK != gotPSKID then false
  else if (mode == modeBase || mode == modeAuth) && gotPSK then false
  else if (mode == modePSK || mode == modeAuthPSK) && !gotPSK then false
  else true

/-- AEAD context state (`encdecCtx`, util.go, not under src/), modelled from
the spec: AEAD key (bound into the primitive), `base_nonce`,
`exporter_secret`, and the sequence counter `seq` starting at 0.  The spec
makes the failure of `increment_seq()` permanent for the context; the
`poisoned` flag records that the limit has been hit so later calls fail. -/
structure encdecCtx where
  suite : Suite
  key : List Nat
  baseNonce : List Nat
  exporterSecret : List Nat
  seq : Nat
  poisoned : Bool
deriving DecidableEq

/-- Modelled from the spec: the key schedule (util.go, not under src/).
PSK/mode consistency is verified before any derivation; then
`psk_id_hash`, `info_hash`, `key_schedule_context = mode(1) ‖ psk_id_hash ‖
info_hash`, `secret = LabeledExtract(shared_secret, "secret", psk)`, and the
three expansions for key, base nonce and exporter secret. -/
def keySchedule (kdf : KDF) (a : AEAD) (s : Suite) (mode : Nat)
    (ss info psk pskID : List Nat) : Except HpkeError encdecCtx :=
  if pskInputsOK mode psk pskID = false then .error .invalidPSKInputs
  else
    let sid := suiteIDBytes s
    let pskIDHash := labeledExtract kdf sid [] (strBytes "psk_id_hash") pskID
    let infoHash := labeledExtract kdf sid [] (strBytes "info_hash") info
    let ksCtx := mode % 256 :: (pskIDHash ++ infoHash)
    let secret := labeledExtract kdf sid ss (strBytes "secret") psk
    let key := labeledExpand kdf sid secret (strBytes "key") ksCtx a.Nk
    let baseNonce := labeledExpand kdf sid secret (strBytes "base_nonce") ksCtx a.Nn
    let expSecret := labeledExpand kdf sid secret (strBytes "exp") ksCtx kdf.Nh
    .ok { suite := s, key := key, baseNonce := baseNonce,
          exporterSecret := expSecret, seq := 0, poisoned := false }

/-- Big-endian encoding of `v` left-padded to `len` bytes. -/
def natToBytesBE : Nat → Nat → List Nat
  | 0, _ => []
  | n + 1, v => natToBytesBE n (v / 256) ++ [v % 256]

/-- Pointwise XOR of two byte strings. -/
def xorBytes (xs ys : List Nat) : List Nat := List.zipWith Nat.xor xs ys

/-- Modelled from the spec: `compute_nonce(seq)` left-pads the big-endian
encoding of `seq` to Nn bytes and XORs with `base_nonce`; pure in `seq`
(util.go, not under src/). -/
def computeNonce (a : AEAD) (c : encdecCtx) : List Nat :=
  xorBytes c.baseNonce (natToBytesBE a.Nn c.seq)

/-- Modelled from the spec: `increment_seq()` fails with `MessageLimitReached`
when `seq == 2^(8·Nn) - 1`, without incrementing; else `seq ← seq + 1`
(util.go, not under src/). -/
def incrementSeq (a : AEAD) (c : encdecCtx) : Except HpkeError encdecCtx :=
  if c.seq = 2 ^ (8 * a.Nn) - 1 then .error .messageLimitReached
  else .ok { c with seq := c.seq + 1 }

/-- Modelled from the spec: `Seal(pt, aad)` encrypts with the nonce for the
current `seq`, then increments; if the increment fails the caller still
receives the ciphertext for the current seq and the context is permanently
poisoned, so the next call fails (util.go, not under src/). -/
def Seal (a : AEAD) (c : encdecCtx) (pt aad : List Nat) :
    Except HpkeError (List Nat × encdecCtx) :=
  if c.poisoned then .error .messageLimitReached
  else
    match incrementSeq a c with
    | .error _ =>
      .ok (a.sealF c.key (computeNonce a c) pt aad, { c with poisoned := true })
    | .ok c1 => .ok (a.sealF c.key (computeNonce a c) pt aad, c1)

/-- Modelled from the spec: `Open(ct, aad)` decrypts with the nonce for the
current `seq`; on AEAD failure returns `AuthFailure` without advancing seq;
on success increments, with the same permanent-poison behaviour as Seal
(util.go, not under src/). -/
def Open (a : AEAD) (c : encdecCtx) (ct aad : List Nat) :
    Except HpkeError (List Nat × encdecCtx) :=
  if c.poisoned then .error .messageLimitReached
  else
    match a.openF c.key (computeNonce a c) ct aad with
    | none => .error .authFailure
    | some pt =>
      match incrementSeq a c with
      | .error _ => .ok (pt, { c with poisoned := true })
      | .ok c1 => .ok (pt, c1)

/-- Modelled from the spec: `Export(expCtx, L) = LabeledExpand(exporter_secret,
"sec", expCtx, L)`; `L` must fit in 16 bits and satisfy `L ≤ 255·Nh`,
exceeding either signals `ExportTooLong` (util.go, not under src/; src/ shows
only the `Exporter` interface). -/
def Export (kdf : KDF) (c : encdecCtx) (expCtx : List Nat) (L : Nat) :
    Except HpkeError (List Nat) :=
  if 255 * kdf.Nh < L ∨ 2 ^ 16 ≤ L then .error .exportTooLong
  else .ok (labeledExpand kdf (suiteIDBytes c.suite) c.exporterSecret
    (strBytes "sec") expCtx L)

/-- Embeds `type state struct { Suite; modeID; skS; pkS; psk; pskID; info }`
(hpke.go).  Go zero values: nil interfaces become `none`, nil slices `[]`,
`modeID` 0. -/
structure state where
  suite : Suite
  modeID : Nat
  skS : Option (List Nat)
  pkS : Option (List Nat)
  psk : List Nat
  pskID : List Nat
  info : List Nat
deriving DecidableEq

/-- Embeds `type Sender struct { state; pkR kem.PublicKey }` (hpke.go). -/
structure Sender where
  st : state
  pkR : Option (List Nat)
deriving DecidableEq

/-- Embeds `func (suite Suite) NewSender(pkR, info)` (hpke.go): validates the suite
and otherwise just records the arguments; all other state fields take their
Go zero values. -/
def Suite.NewSender (suite : Suite) (pkR : Option (List Nat)) (info : List Nat) :
    Except HpkeError Sender :=
  if suite.isValid = false then .error .invalidSuite
  else .ok { st := { suite := suite, modeID := 0, skS := none, pkS := none,
                     psk := [], pskID := [], info := info },
             pkR := pkR }

/-- Embeds `func (s *Sender) buildBase()` (hpke.go): sets `modeID = modeBase`. -/
def Sender.buildBase (s : Sender) : Sender :=
  { s with st := { s.st with modeID := modeBase } }

/-- Embeds `func (s *Sender) buildAuth(skS)` (hpke.go): sets `modeID = modeAuth` and
stores `skS`. -/
def Sender.buildAuth (s : Sender) (skS : Option (List Nat)) : Sender :=
  { s with st := { s.st with modeID := modeAuth, skS := skS } }

/-- Embeds `func (s *Sender) buildPSK(psk, pskID)` (hpke.go): sets `modeID = modePSK`
and stores `psk`, `pskID`. -/
def Sender.buildPSK (s : Sender) (psk pskID : List Nat) : Sender :=
  { s with st := { s.st with modeID := modePSK, psk := psk, pskID := pskID } }

/-- Embeds `func (s *Sender) buildAuthPSK(skS, psk, pskID)` (hpke.go): sets
`modeID = modeAuthPSK` and stores `skS`, `psk`, `pskID`. -/
def Sender.buildAuthPSK (s : Sender) (skS : Option (List Nat))
    (psk pskID : List Nat) : Sender :=
  { s with st := { s.st with modeID := modeAuthPSK, skS := skS,
                             psk := psk, pskID := pskID } }

/-- Embeds `func (s *Sender) allSetup(k kem.AuthScheme)` (hpke.go): encapsulate
(plain for Base/PSK, authenticated for Auth/AuthPSK), propagate any KEM
error, then run the key schedule.  The KDF and AEAD handles the suite
registry would resolve from the suite IDs are passed as parameters, the
registry living outside src/. -/
def Sender.allSetup (s : Sender) (k : KEMScheme) (kdf : KDF) (a : AEAD) :
    Except HpkeError (List Nat × encdecCtx) :=
  let er : Except HpkeError (List Nat × List Nat) :=
    if s.st.modeID = modeBase ∨ s.st.modeID = modePSK then
      k.encapsulate s.pkR
    else if s.st.modeID = modeAuth ∨ s.st.modeID = modeAuthPSK then
      k.authEncapsulate s.pkR s.st.skS
    else .ok ([], [])
  match er with
  | .error e => .error e
  | .ok (enc, ss) =>
    match keySchedule kdf a s.st.suite s.st.modeID ss s.st.info s.st.psk s.st.pskID with
    | .error e => .error e
    | .ok ctx => .ok (enc, ctx)

/-- Embeds `func (s *Sender) Setup()` (hpke.go): `s.buildBase().allSetup(...)`.
The method mutates the receiver in place; the mutated Sender is returned in
the first component. -/
def Sender.Setup (s : Sender) (k : KEMScheme) (kdf : KDF) (a : AEAD) :
    Sender × Except HpkeError (List Nat × encdecCtx) :=
  let s1 := s.buildBase
  (s1, s1.allSetup k kdf a)

/-- Embeds `func (s *Sender) SetupAuth(skS)` (hpke.go). -/
def Sender.SetupAuth (s : Sender) (skS : Option (List Nat)) (k : KEMScheme)
    (kdf : KDF) (a : AEAD) :
    Sender × Except HpkeError (List Nat × encdecCtx) :=
  let s1 := s.buildAuth skS
  (s1, s1.allSetup k kdf a)

/-- Embeds `func (s *Sender) SetupPSK(psk, pskID)` (hpke.go). -/
def Sender.SetupPSK (s : Sender) (psk pskID : List Nat) (k : KEMScheme)
    (kdf : KDF) (a : AEAD) :
    Sender × Except HpkeError (List Nat × encdecCtx) :=
  let s1 := s.buildPSK psk pskID
  (s1, s1.allSetup k kdf a)

/-- Embeds `func (s *Sender) SetupAuthPSK(skS, psk, pskID)` (hpke.go). -/
def Sender.SetupAuthPSK (s : Sender) (skS : Option (List Nat))
    (psk pskID : List Nat) (k : KEMScheme) (kdf : KDF) (a : AEAD) :
    Sender × Except HpkeError (List Nat × encdecCtx) :=
  let s1 := s.buildAuthPSK skS psk pskID
  (s1, s1.allSetup k kdf a)

/-- Embeds `type Receiver struct { state; skR kem.PrivateKey; enc []byte }`
(hpke.go). -/
structure Receiver where
  st : state
  skR : Option (List Nat)
  enc : List Nat
deriving DecidableEq

/-- Embeds `func (suite Suite) NewReceiver(skR, info)` (hpke.go). -/
def Suite.NewReceiver (suite : Suite) (skR : Option (List Nat)) (info : List Nat) :
    Except HpkeError Receiver :=
  if suite.isValid = false then .error .invalidSuite
  else .ok { st := { suite := suite, modeID := 0, skS := none, pkS := none,
                     psk := [], pskID := [], info := info },
             skR := skR, enc := [] }

/-- Embeds `func (r *Receiver) allSetup()` (hpke.go): decapsulate (plain for
Base/PSK, authenticated for Auth/AuthPSK), propagate any KEM error, then run
the key schedule.  In the source `k := r.KemID.Scheme()` resolves the KEM
from the registry (outside src/); it is passed as a parameter here, as are
the KDF and AEAD handles. -/
def Receiver.allSetup (r : Receiver) (k : KEMScheme) (kdf : KDF) (a : AEAD) :
    Except HpkeError encdecCtx :=
  let er : Except HpkeError (List Nat) :=
    if r.st.modeID = modeBase ∨ r.st.modeID = modePSK then
      k.decapsulate r.skR r.enc
    else if r.st.modeID = modeAuth ∨ r.st.modeID = modeAuthPSK then
      k.authDecapsulate r.skR r.enc r.st.pkS
    else .ok []
  match er with
  | .error e => .error e
  | .ok ss =>
    match keySchedule kdf a r.st.suite r.st.modeID ss r.st.info r.st.psk r.st.pskID with
    | .error e => .error e
    | .ok ctx => .ok ctx

/-- Embeds `func (r *Receiver) Setup(enc)` (hpke.go): sets `modeID = modeBase`,
records `enc`, runs `allSetup`.  The mutated Receiver is the first
component. -/
def Receiver.Setup (r : Receiver) (enc : List Nat) (k : KEMScheme) (kdf : KDF)
    (a : AEAD) : Receiver × Except HpkeError encdecCtx :=
  let r1 : Receiver := { r with st := { r.st with modeID := modeBase }, enc := enc }
  (r1, r1.allSetup k kdf a)

/-- Embeds `func (r *Receiver) SetupAuth(enc, pkS)` (hpke.go). -/
def Receiver.SetupAuth (r : Receiver) (enc : List Nat) (pkS : Option (List Nat))
    (k : KEMScheme) (kdf : KDF) (a : AEAD) :
    Receiver × Except HpkeError encdecCtx :=
  let r1 : Receiver :=
    { r with st := { r.st with modeID := modeAuth, pkS := pkS }, enc := enc }
  (r1, r1.allSetup k kdf a)

/-- Embeds `func (r *Receiver) SetupPSK(enc, psk, pskID)` (hpke.go). -/
def Receiver.SetupPSK (r : Receiver) (enc psk pskID : List Nat)
    (k : KEMScheme) (kdf : KDF) (a : AEAD) :
    Receiver × Except HpkeError encdecCtx :=
  let r1 : Receiver :=
    { r with st := { r.st with modeID := modePSK, psk := psk, pskID := pskID },
             enc := enc }
  (r1, r1.allSetup k kdf a)

/-- Embeds `func (r *Receiver) SetupAuthPSK(enc, psk, pskID, pkS)` (hpke.go). -/
def Receiver.SetupAuthPSK (r : Receiver) (enc psk pskID : List Nat)
    (pkS : Option (List Nat)) (k : KEMScheme) (kdf : KDF) (a : AEAD) :
    Receiver × Except HpkeError encdecCtx :=
  let r1 : Receiver :=
    { r with st := { r.st with modeID := modeAuthPSK, psk := psk,
                               pskID := pskID, pkS := pkS },
             enc := enc }
  (r1, r1.allSetup k kdf a)

/-- In-order sealing of a list of (plaintext, aad) pairs, threading the
context; `none` if any Seal fails. -/
def sealMany (a : AEAD) (c : encdecCtx) :
    List (List Nat × List Nat) → Option (List (List Nat) × encdecCtx)
  | [] => some ([], c)
  | (pt, aad) :: rest =>
    match Seal a c pt aad with
    | .error _ => none
    | .ok (ct, c1) =>
      match sealMany a c1 rest with
      | none => none
      | some (cts, cf) => some (ct :: cts, cf)

/-- In-order opening of a list of (ciphertext, aad) pairs, threading the
context; `none` if any Open fails. -/
def openMany (a : AEAD) (c : encdecCtx) :
    List (List Nat × List Nat) → Option (List (List Nat) × encdecCtx)
  | [] => some ([], c)
  | (ct, aad) :: rest =>
    match Open a c ct aad with
    | .error _ => none
    | .ok (pt, c1) =>
      match openMany a c1 rest with
      | none => none
      | some (pts, cf) => some (pt :: pts, cf)

/-! Concrete sample instances of the abstract collaborators, used to evaluate
the definitions on closed inputs. -/

/-- A valid suite: DHKEM(X25519, HKDF-SHA256), HKDF-SHA256, AES-128-GCM. -/
def toySuite : Suite := { KemID := 0x20, KdfID := 0x01, AeadID := 0x01 }

/-- A suite with an unknown KemID. -/
def badSuite : Suite := { KemID := 0x99, KdfID := 0x01, AeadID := 0x01 }

/-- A degenerate but total KDF instance. -/
def toyKdf : KDF :=
  { Nh := 1, extract := fun _ _ => [7], expand := fun _ _ L => List.replicate L 1 }

/-- A correct sample AEAD with a one-byte nonce: Seal is the identity on the
plaintext and Open accepts everything. -/
def toyAead : AEAD :=
  { Nk := 1, Nn := 1,
    sealF := fun _ _ pt _ => pt,
    openF := fun _ _ ct _ => some ct }

/-- A correct sample AEAD with a zero-length nonce, so the message limit
`2^(8·Nn) = 1` is reached immediately. -/
def toyAead0 : AEAD :=
  { Nk := 1, Nn := 0,
    sealF := fun _ _ pt _ => pt,
    openF := fun _ _ ct _ => some ct }

/-- A KEM whose operations all succeed with fixed values. -/
def toyKem : KEMScheme :=
  { encapsulate := fun _ => .ok ([9], [5]),
    authEncapsulate := fun _ _ => .ok ([8], [6]),
    decapsulate := fun _ _ => .ok [5],
    authDecapsulate := fun _ _ _ => .ok [6] }

/-- A KEM whose operations all fail. -/
def failKem : KEMScheme :=
  { encapsulate := fun _ => .error (.kemError 3),
    authEncapsulate := fun _ _ => .error (.kemError 4),
    decapsulate := fun _ _ => .error (.kemError 5),
    authDecapsulate := fun _ _ _ => .error (.kemError 6) }

/-- A freshly constructed sample Sender. -/
def toySender : Sender :=
  { st := { suite := toySuite, modeID := 0, skS := none, pkS := none,
            psk := [], pskID := [], info := [] },
    pkR := some [3] }

/-- A freshly constructed sample Receiver. -/
def toyReceiver : Receiver :=
  { st := { suite := toySuite, modeID := 0, skS := none, pkS := none,
            psk := [], pskID := [], info := [] },
    skR := some [4], enc := [] }

/-- A sample AEAD context state. -/
def toyCtx : encdecCtx :=
  { suite := toySuite, key := [1], baseNonce := [1], exporterSecret := [1],
    seq := 0, poisoned := false }

/-- C3: Sender setup in modes Base and PSK calls `Encapsulate(pkR)`, in modes
Auth and AuthPSK `AuthEncapsulate(pkR, skS)`; Receiver setup calls
`Decapsulate(skR, enc)` in Base/PSK and `AuthDecapsulate(skR, enc, pkS)` in
Auth/AuthPSK; and each Setup variant runs the key schedule with the matching
modeID (Base=0, PSK=1, Auth=2, AuthPSK=3). -/
theorem C3_mode_dispatch (s : Sender) (r : Receiver) (k : KEMScheme)
    (kdf : KDF) (a : AEAD) (skS pkS : Option (List Nat))
    (enc psk pskID : List Nat) :
    (modeBase = 0 ∧ modePSK = 1 ∧ modeAuth = 2 ∧ modeAuthPSK = 3) ∧
    (s.Setup k kdf a = (s.buildBase, s.buildBase.allSetup k kdf a) ∧
     s.SetupAuth skS k kdf a =
       (s.buildAuth skS, (s.buildAuth skS).allSetup k kdf a) ∧
     s.SetupPSK psk pskID k kdf a =
       (s.buildPSK psk pskID, (s.buildPSK psk pskID).allSetup k kdf a) ∧
     s.SetupAuthPSK skS psk pskID k kdf a =
       (s.buildAuthPSK skS psk pskID,
        (s.buildAuthPSK skS psk pskID).allSetup k kdf a)) ∧
    (s.buildBase.allSetup k kdf a =
      (match k.encapsulate s.pkR with
       | .error e => .error e
       | .ok (e2, ss) =>
         match keySchedule kdf a s.st.suite modeBase ss s.st.info s.st.psk
             s.st.pskID with
         | .error e => .error e
         | .ok ctx => .ok (e2, ctx)) ∧
     (s.buildPSK psk pskID).allSetup k kdf a =
      (match k.encapsulate s.pkR with
       | .error e => .error e
       | .ok (e2, ss) =>
         match keySchedule kdf a s.st.suite modePSK ss s.st.info psk pskID with
         | .error e => .error e
         | .ok ctx => .ok (e2, ctx)) ∧
     (s.buildAuth skS).allSetup k kdf a =
      (match k.authEncapsulate s.pkR skS with
       | .error e => .error e
       | .ok (e2, ss) =>
         match keySchedule kdf a s.st.suite modeAuth ss s.st.info s.st.psk
             s.st.pskID with
         | .error e => .error e
         | .ok ctx => .ok (e2, ctx)) ∧
     (s.buildAuthPSK skS psk pskID).allSetup k kdf a =
      (match k.authEncapsulate s.pkR skS with
       | .error e => .error e
       | .ok (e2, ss) =>
         match keySchedule kdf a s.st.suite modeAuthPSK ss s.st.info psk
             pskID with
         | .error e => .error e
         | .ok ctx => .ok (e2, ctx))) ∧
    ((r.Setup enc k kdf a).snd =
      (match k.decapsulate r.skR enc with
       | .error e => .error e
       | .ok ss =>
         match keySchedule kdf a r.st.suite modeBase ss r.st.info r.st.psk
             r.st.pskID with
         | .error e => .error e
         | .ok ctx => .ok ctx) ∧
     (r.SetupPSK enc psk pskID k kdf a).snd =
      (match k.decapsulate r.skR enc with
       | .error e => .error e
       | .ok ss =>
         match keySchedule kdf a r.st.suite modePSK ss r.st.info psk pskID with
         | .error e => .error e
         | .ok ctx => .ok ctx) ∧
     (r.SetupAuth enc pkS k kdf a).snd =
      (match k.authDecapsulate r.skR enc pkS with
       | .error e => .error e
       | .ok ss =>
         match keySchedule kdf a r.st.suite modeAuth ss r.st.info r.st.psk
             r.st.pskID with
         | .error e => .error e
         | .ok ctx => .ok ctx) ∧
     (r.SetupAuthPSK enc psk pskID pkS k kdf a).snd =
      (match k.authDecapsulate r.skR enc pkS with
       | .error e => .error e
       | .ok ss =>
         match keySchedule kdf a r.st.suite modeAuthPSK ss r.st.info psk
             pskID with
         | .error e => .error e
         | .ok ctx => .ok ctx)) :=
  ⟨⟨rfl, rfl, rfl, rfl⟩, ⟨rfl, rfl, rfl, rfl⟩,
   ⟨rfl, rfl, rfl, rfl⟩, ⟨rfl, rfl, rfl, rfl⟩⟩

/-- C9: every Setup* call mutates the Sender/Receiver in place, setting
`modeID` and exactly the mode parameters it takes, and leaves every other
stored parameter unchanged; in particular `skS` recorded by `SetupAuth`
survives a later `SetupPSK`, and `psk`/`pskID` recorded by a PSK-mode call
survive a later Base-mode `Setup`. -/
theorem C9_setup_frame (s : Sender) (r : Receiver) (k : KEMScheme)
    (kdf : KDF) (a : AEAD) (skS pkS : Option (List Nat))
    (enc psk pskID : List Nat) :
    (s.buildBase.st.modeID = modeBase ∧ s.buildBase.st.skS = s.st.skS ∧
     s.buildBase.st.pkS = s.st.pkS ∧ s.buildBase.st.psk = s.st.psk ∧
     s.buildBase.st.pskID = s.st.pskID ∧ s.buildBase.st.info = s.st.info ∧
     s.buildBase.st.suite = s.st.suite ∧ s.buildBase.pkR = s.pkR) ∧
    ((s.buildAuth skS).st.modeID = modeAuth ∧
     (s.buildAuth skS).st.skS = skS ∧
     (s.buildAuth skS).st.pkS = s.st.pkS ∧
     (s.buildAuth skS).st.psk = s.st.psk ∧
     (s.buildAuth skS).st.pskID = s.st.pskID ∧
     (s.buildAuth skS).st.info = s.st.info ∧
     (s.buildAuth skS).pkR = s.pkR) ∧
    ((s.buildPSK psk pskID).st.modeID = modePSK ∧
     (s.buildPSK psk pskID).st.psk = psk ∧
     (s.buildPSK psk pskID).st.pskID = pskID ∧
     (s.buildPSK psk pskID).st.skS = s.st.skS ∧
     (s.buildPSK psk pskID).st.pkS = s.st.pkS ∧
     (s.buildPSK psk pskID).st.info = s.st.info ∧
     (s.buildPSK psk pskID).pkR = s.pkR) ∧
    ((s.buildAuthPSK skS psk pskID).st.modeID = modeAuthPSK ∧
     (s.buildAuthPSK skS psk pskID).st.skS = skS ∧
     (s.buildAuthPSK skS psk pskID).st.psk = psk ∧
     (s.buildAuthPSK skS psk pskID).st.pskID = pskID ∧
     (s.buildAuthPSK skS psk pskID).st.pkS = s.st.pkS ∧
     (s.buildAuthPSK skS psk pskID).st.info = s.st.info ∧
     (s.buildAuthPSK skS psk pskID).pkR = s.pkR) ∧
    (s.Setup k kdf a).fst = s.buildBase ∧
    (s.SetupAuth skS k kdf a).fst = s.buildAuth skS ∧
    (s.SetupPSK psk pskID k kdf a).fst = s.buildPSK psk pskID ∧
    (s.SetupAuthPSK skS psk pskID k kdf a).fst = s.buildAuthPSK skS psk pskID ∧
    (((s.buildAuth skS).buildPSK psk pskID).st.skS = skS ∧
     ((s.buildAuth skS).buildPSK psk pskID).st.modeID = modePSK) ∧
    ((s.buildPSK psk pskID).buildBase.st.psk = psk ∧
     (s.buildPSK psk pskID).buildBase.st.pskID = pskID) ∧
    ((r.Setup enc k kdf a).fst.st.modeID = modeBase ∧
     (r.Setup enc k kdf a).fst.enc = enc ∧
     (r.Setup enc k kdf a).fst.st.psk = r.st.psk ∧
     (r.Setup enc k kdf a).fst.st.pskID = r.st.pskID ∧
     (r.Setup enc k kdf a).fst.st.pkS = r.st.pkS ∧
     (r.Setup enc k kdf a).fst.skR = r.skR ∧
     (r.Setup enc k kdf a).fst.st.info = r.st.info) ∧
    ((r.SetupAuth enc pkS k kdf a).fst.st.modeID = modeAuth ∧
     (r.SetupAuth enc pkS k kdf a).fst.st.pkS = pkS ∧
     (r.SetupAuth enc pkS k kdf a).fst.st.psk = r.st.psk ∧
     (r.SetupAuth enc pkS k kdf a).fst.st.pskID = r.st.pskID ∧
     (r.SetupAuth enc pkS k kdf a).fst.skR = r.skR) ∧
    ((r.SetupPSK enc psk pskID k kdf a).fst.st.modeID = modePSK ∧
     (r.SetupPSK enc psk pskID k kdf a).fst.st.psk = psk ∧
     (r.SetupPSK enc psk pskID k kdf a).fst.st.pskID = pskID ∧
     (r.SetupPSK enc psk pskID k kdf a).fst.st.pkS = r.st.pkS ∧
     (r.SetupPSK enc psk pskID k kdf a).fst.skR = r.skR) ∧
    ((r.SetupAuthPSK enc psk pskID pkS k kdf a).fst.st.modeID = modeAuthPSK ∧
     (r.SetupAuthPSK enc psk pskID pkS k kdf a).fst.st.psk = psk ∧
     (r.SetupAuthPSK enc psk pskID pkS k kdf a).fst.st.pskID = pskID ∧
     (r.SetupAuthPSK enc psk pskID pkS k kdf a).fst.st.pkS = pkS ∧
     (r.SetupAuthPSK enc psk pskID pkS k kdf a).fst.skR = r.skR) :=
  ⟨⟨rfl, rfl, rfl, rfl, rfl, rfl, rfl, rfl⟩,
   ⟨rfl, rfl, rfl, rfl, rfl, rfl, rfl⟩,
   ⟨rfl, rfl, rfl, rfl, rfl, rfl, rfl⟩,
   ⟨rfl, rfl, rfl, rfl, rfl, rfl, rfl⟩,
   rfl, rfl, rfl, rfl,
   ⟨rfl, rfl⟩, ⟨rfl, rfl⟩,
   ⟨rfl, rfl, rfl, rfl, rfl, rfl, rfl⟩,
   ⟨rfl, rfl, rfl, rfl, rfl⟩,
   ⟨rfl, rfl, rfl, rfl, rfl⟩,
   ⟨rfl, rfl, rfl, rfl, rfl⟩⟩

/-- C7: NewSender and NewReceiver fail with an invalid-suite error for every
Suite containing an unknown KemID, KdfID, or AeadID, and succeed with a fresh
Sender/Receiver for every valid Suite. -/
theorem C7_new_validates_suite (suite : Suite) (pkR skR : Option (List Nat))
    (info : List Nat) :
    (suite.isValid = false →
      suite.NewSender pkR info = .error .invalidSuite ∧
      suite.NewReceiver skR info = .error .invalidSuite) ∧
    (suite.isValid = true →
      suite.NewSender pkR info =
        .ok { st := { suite := suite, modeID := 0, skS := none, pkS := none,
                      psk := [], pskID := [], info := info }, pkR := pkR } ∧
      suite.NewReceiver skR info =
        .ok { st := { suite := suite, modeID := 0, skS := none, pkS := none,
                      psk := [], pskID := [], info := info },
              skR := skR, enc := [] }) ∧
    (suite.isValid =
      ([0x10, 0x11, 0x12, 0x20, 0x21].contains suite.KemID &&
       [0x01, 0x02, 0x03].contains suite.KdfID &&
       [0x01, 0x02, 0x03].contains suite.AeadID)) := by
  refine ⟨fun h => ?_, fun h => ?_, rfl⟩
  · exact ⟨by simp [Suite.NewSender, h], by simp [Suite.NewReceiver, h]⟩
  · exact ⟨by simp [Suite.NewSender, h], by simp [Suite.NewReceiver, h]⟩

/-- Closed instance of C7: an unknown KemID is rejected, a known triple is
accepted. -/
theorem C7_witness :
    (badSuite.NewSender (some [3]) [] = .error .invalidSuite ∧
     badSuite.NewReceiver (some [4]) [] = .error .invalidSuite) ∧
    toySuite.NewSender (some [3]) [] = .ok toySender := by
  refine ⟨(C7_new_validates_suite badSuite (some [3]) (some [4]) []).1 (by decide),
          ?_⟩
  exact ((C7_new_validates_suite toySuite (some [3]) (some [4]) []).2.1
    (by decide)).1

/-- C10: construction validates only the suite: for every valid Suite, every
key argument including `none` (Go nil), and every info string, NewSender and
NewReceiver succeed, merely storing the key; key-related failures are left to
the Setup* calls. -/
theorem C10_construction_ignores_keys (suite : Suite)
    (pkR skR : Option (List Nat)) (info : List Nat)
    (h : suite.isValid = true) :
    suite.NewSender pkR info =
      .ok { st := { suite := suite, modeID := 0, skS := none, pkS := none,
                    psk := [], pskID := [], info := info }, pkR := pkR } ∧
    suite.NewSender none info =
      .ok { st := { suite := suite, modeID := 0, skS := none, pkS := none,
                    psk := [], pskID := [], info := info }, pkR := none } ∧
    suite.NewReceiver skR info =
      .ok { st := { suite := suite, modeID := 0, skS := none, pkS := none,
                    psk := [], pskID := [], info := info },
            skR := skR, enc := [] } ∧
    suite.NewReceiver none info =
      .ok { st := { suite := suite, modeID := 0, skS := none, pkS := none,
                    psk := [], pskID := [], info := info },
            skR := none, enc := [] } := by
  refine ⟨?_, ?_, ?_, ?_⟩ <;> simp [Suite.NewSender, Suite.NewReceiver, h]

/-- Closed instance of C10: construction succeeds with nil keys on a valid
suite. -/
theorem C10_witness :
    toySuite.NewSender none [] =
      .ok { st := { suite := toySuite, modeID := 0, skS := none, pkS := none,
                    psk := [], pskID := [], info := [] }, pkR := none } ∧
    toySuite.NewReceiver none [] =
      .ok { st := { suite := toySuite, modeID := 0, skS := none, pkS := none,
                    psk := [], pskID := [], info := [] },
            skR := none, enc := [] } := by
  have h := C10_construction_ignores_keys toySuite none none [] (by decide)
  exact ⟨h.2.1, h.2.2.2⟩

/-- A key schedule rejecting its PSK inputs fails with `InvalidPSKInputs`. -/
theorem keySchedule_psk_reject (kdf : KDF) (a : AEAD) (su : Suite) (mode : Nat)
    (ss info psk pskID : List Nat) (h : pskInputsOK mode psk pskID = false) :
    keySchedule kdf a su mode ss info psk pskID = .error .invalidPSKInputs := by
  simp [keySchedule, h]

/-- In Base or Auth mode a non-empty psk or pskID fails the PSK check. -/
theorem pskInputsOK_false_base_auth (mode : Nat)
    (hm : mode = modeBase ∨ mode = modeAuth) (psk pskID : List Nat)
    (hbad : psk ≠ [] ∨ pskID ≠ []) : pskInputsOK mode psk pskID = false := by
  rcases hm with h | h <;> subst h <;> rcases hbad with h2 | h2 <;>
    cases psk <;> cases pskID <;>
      simp_all [pskInputsOK, modeBase, modePSK, modeAuth, modeAuthPSK]

/-- In PSK or AuthPSK mode an empty psk or pskID fails the PSK check. -/
theorem pskInputsOK_false_psk_modes (mode : Nat)
    (hm : mode = modePSK ∨ mode = modeAuthPSK) (psk pskID : List Nat)
    (hbad : psk = [] ∨ pskID = []) : pskInputsOK mode psk pskID = false := by
  rcases hm with h | h <;> subst h <;> rcases hbad with h2 | h2 <;> subst h2 <;>
    first
    | (cases pskID <;>
        simp_all [pskInputsOK, modeBase, modePSK, modeAuth, modeAuthPSK])
    | (cases psk <;>
        simp_all [pskInputsOK, modeBase, modePSK, modeAuth, modeAuthPSK])

/-- C4: the PSK consistency check is enforced at setup, before any key
derivation: the key schedule rejects (uniformly in the KDF, AEAD, shared
secret and info, so no derivation happens) with `InvalidPSKInputs` exactly
when one of psk/pskID is empty and the other is not, or either is non-empty
in Base/Auth, or either is empty in PSK/AuthPSK; accordingly every Setup*
call whose KEM step succeeded fails with `InvalidPSKInputs` on such
inputs. -/
theorem C4_invalid_psk_inputs (mode : Nat) (psk pskID : List Nat)
    (hm : mode ≤ 3) :
    (∀ kdf a su ss info,
      keySchedule kdf a su mode ss info psk pskID = .error .invalidPSKInputs ↔
        (¬(psk = [] ↔ pskID = []) ∨
         ((mode = modeBase ∨ mode = modeAuth) ∧ (psk ≠ [] ∨ pskID ≠ [])) ∨
         ((mode = modePSK ∨ mode = modeAuthPSK) ∧ (psk = [] ∨ pskID = [])))) ∧
    (∀ (s : Sender) (k : KEMScheme) (kdf : KDF) (a : AEAD) (enc ss : List Nat),
      k.encapsulate s.pkR = .ok (enc, ss) →
      (s.st.psk ≠ [] ∨ s.st.pskID ≠ []) →
      (s.Setup k kdf a).snd = .error .invalidPSKInputs) ∧
    (∀ (s : Sender) (skS : Option (List Nat)) (k : KEMScheme) (kdf : KDF)
        (a : AEAD) (enc ss : List Nat),
      k.authEncapsulate s.pkR skS = .ok (enc, ss) →
      (s.st.psk ≠ [] ∨ s.st.pskID ≠ []) →
      (s.SetupAuth skS k kdf a).snd = .error .invalidPSKInputs) ∧
    (∀ (s : Sender) (k : KEMScheme) (kdf : KDF) (a : AEAD) (enc ss : List Nat),
      k.encapsulate s.pkR = .ok (enc, ss) →
      (psk = [] ∨ pskID = []) →
      (s.SetupPSK psk pskID k kdf a).snd = .error .invalidPSKInputs) ∧
    (∀ (s : Sender) (skS : Option (List Nat)) (k : KEMScheme) (kdf : KDF)
        (a : AEAD) (enc ss : List Nat),
      k.authEncapsulate s.pkR skS = .ok (enc, ss) →
      (psk = [] ∨ pskID = []) →
      (s.SetupAuthPSK skS psk pskID k kdf a).snd = .error .invalidPSKInputs) := by
  refine ⟨fun kdf a su ss info => ?_, ?_, ?_, ?_, ?_⟩
  · unfold keySchedule
    interval_cases mode <;> cases psk <;> cases pskID <;>
      simp [pskInputsOK, modeBase, modePSK, modeAuth, modeAuthPSK]
  · intro s k kdf a enc ss hk hbad
    have hks := keySchedule_psk_reject kdf a s.st.suite modeBase ss s.st.info
      s.st.psk s.st.pskID
      (pskInputsOK_false_base_auth modeBase (Or.inl rfl) s.st.psk s.st.pskID hbad)
    simp only [Sender.Setup, Sender.allSetup, Sender.buildBase]
    rw [if_pos (Or.inl trivial)]
    simp [hk, hks]
  · intro s skS k kdf a enc ss hk hbad
    have hks := keySchedule_psk_reject kdf a s.st.suite modeAuth ss s.st.info
      s.st.psk s.st.pskID
      (pskInputsOK_false_base_auth modeAuth (Or.inr rfl) s.st.psk s.st.pskID hbad)
    simp only [Sender.SetupAuth, Sender.allSetup, Sender.buildAuth]
    rw [if_pos (Or.inl trivial), if_neg (by decide)]
    simp [hk, hks]
  · intro s k kdf a enc ss hk hbad
    have hks := keySchedule_psk_reject kdf a s.st.suite modePSK ss s.st.info
      psk pskID
      (pskInputsOK_false_psk_modes modePSK (Or.inl rfl) psk pskID hbad)
    simp only [Sender.SetupPSK, Sender.allSetup, Sender.buildPSK]
    rw [if_pos (Or.inr trivial)]
    simp [hk, hks]
  · intro s skS k kdf a enc ss hk hbad
    have hks := keySchedule_psk_reject kdf a s.st.suite modeAuthPSK ss s.st.info
      psk pskID
      (pskInputsOK_false_psk_modes modeAuthPSK (Or.inr rfl) psk pskID hbad)
    simp only [Sender.SetupAuthPSK, Sender.allSetup, Sender.buildAuthPSK]
    rw [if_pos (Or.inr trivial), if_neg (by decide)]
    simp [hk, hks]

/-- Closed instance of C4: a pskID without a psk is rejected by the key
schedule, and SetupPSK with an empty psk fails with `InvalidPSKInputs`. -/
theorem C4_witness :
    keySchedule toyKdf toyAead toySuite 1 [5] [] [] [9] =
      .error .invalidPSKInputs ∧
    (toySender.SetupPSK [] [9] toyKem toyKdf toyAead).snd =
      .error .invalidPSKInputs := by
  have h := C4_invalid_psk_inputs 1 [] [9] (by decide)
  refine ⟨(h.1 toyKdf toyAead toySuite [5] []).mpr ?_, ?_⟩
  · exact Or.inl (by simp)
  · exact h.2.2.2.1 toySender toyKem toyKdf toyAead [9] [5] rfl (Or.inl rfl)

/-- C5: Export with a length exceeding `255·Nh`, or not fitting in 16 bits,
fails with `ExportTooLong` instead of returning bytes. -/
theorem C5_export_too_long (kdf : KDF) (c : encdecCtx) (expCtx : List Nat)
    (L : Nat) :
    (255 * kdf.Nh < L → Export kdf c expCtx L = .error .exportTooLong) ∧
    (2 ^ 16 ≤ L → Export kdf c expCtx L = .error .exportTooLong) :=
  ⟨fun h => by unfold Export; rw [if_pos (Or.inl h)],
   fun h => by unfold Export; rw [if_pos (Or.inr h)]⟩

/-- Closed instance of C5: with Nh = 1, an export length of 300 (and one of
2^16) is refused. -/
theorem C5_witness :
    Export toyKdf toyCtx [] 300 = .error .exportTooLong ∧
    Export toyKdf toyCtx [] 65536 = .error .exportTooLong :=
  ⟨(C5_export_too_long toyKdf toyCtx [] 300).1 (by decide),
   (C5_export_too_long toyKdf toyCtx [] 65536).2 (by decide)⟩

/-- C6: if the KEM step of a Sender or Receiver setup fails, allSetup returns
exactly that error, exposing no context, and the key schedule is never run:
the result is the same error for every KDF and AEAD handle. -/
theorem C6_kem_failure_aborts (s : Sender) (r : Receiver) (k : KEMScheme)
    (e : HpkeError) :
    (k.encapsulate s.pkR = .error e →
      (s.st.modeID = modeBase ∨ s.st.modeID = modePSK) →
      ∀ (kdf : KDF) (a : AEAD), s.allSetup k kdf a = .error e) ∧
    (k.authEncapsulate s.pkR s.st.skS = .error e →
      (s.st.modeID = modeAuth ∨ s.st.modeID = modeAuthPSK) →
      ∀ (kdf : KDF) (a : AEAD), s.allSetup k kdf a = .error e) ∧
    (k.decapsulate r.skR r.enc = .error e →
      (r.st.modeID = modeBase ∨ r.st.modeID = modePSK) →
      ∀ (kdf : KDF) (a : AEAD), r.allSetup k kdf a = .error e) ∧
    (k.authDecapsulate r.skR r.enc r.st.pkS = .error e →
      (r.st.modeID = modeAuth ∨ r.st.modeID = modeAuthPSK) →
      ∀ (kdf : KDF) (a : AEAD), r.allSetup k kdf a = .error e) := by
  refine ⟨fun hk hm kdf a => ?_, fun hk hm kdf a => ?_,
          fun hk hm kdf a => ?_, fun hk hm kdf a => ?_⟩ <;>
    rcases hm with h | h <;>
      simp [Sender.allSetup, Receiver.allSetup, h, modeBase, modePSK,
        modeAuth, modeAuthPSK, hk]

/-- Closed instance of C6: a failing KEM aborts both sender and receiver
setup with the KEM's own error. -/
theorem C6_witness :
    toySender.buildBase.allSetup failKem toyKdf toyAead = .error (.kemError 3) ∧
    (toyReceiver.Setup [2] failKem toyKdf toyAead).snd = .error (.kemError 5) := by
  constructor
  · exact (C6_kem_failure_aborts toySender.buildBase toyReceiver failKem
      (.kemError 3)).1 rfl (Or.inl rfl) toyKdf toyAead
  · exact (C6_kem_failure_aborts toySender
      { toyReceiver with st := { toyReceiver.st with modeID := modeBase },
                         enc := [2] }
      failKem (.kemError 5)).2.2.1 rfl (Or.inl rfl) toyKdf toyAead

/-- Seal on a poisoned context fails with `MessageLimitReached`. -/
theorem Seal_poisoned (a : AEAD) (c : encdecCtx) (pt aad : List Nat)
    (hp : c.poisoned = true) :
    Seal a c pt aad = .error .messageLimitReached := by
  unfold Seal
  rw [if_pos hp]

/-- Seal strictly below the message limit returns the AEAD ciphertext and
advances seq by one. -/
theorem Seal_below_limit (a : AEAD) (c : encdecCtx) (pt aad : List Nat)
    (hp : c.poisoned = false) (h : c.seq ≠ 2 ^ (8 * a.Nn) - 1) :
    Seal a c pt aad =
      .ok (a.sealF c.key (computeNonce a c) pt aad,
           { c with seq := c.seq + 1 }) := by
  unfold Seal incrementSeq
  rw [if_neg (by simp [hp]), if_neg h]

/-- Seal at the message limit still returns the ciphertext but poisons the
context, leaving seq unchanged. -/
theorem Seal_at_limit (a : AEAD) (c : encdecCtx) (pt aad : List Nat)
    (hp : c.poisoned = false) (h : c.seq = 2 ^ (8 * a.Nn) - 1) :
    Seal a c pt aad =
      .ok (a.sealF c.key (computeNonce a c) pt aad,
           { c with poisoned := true }) := by
  unfold Seal incrementSeq
  rw [if_neg (by simp [hp]), if_pos h]

/-- Open on a poisoned context fails with `MessageLimitReached`. -/
theorem Open_poisoned (a : AEAD) (c : encdecCtx) (ct aad : List Nat)
    (hp : c.poisoned = true) :
    Open a c ct aad = .error .messageLimitReached := by
  unfold Open
  rw [if_pos hp]

/-- Open fails with `AuthFailure` when the AEAD rejects, without touching the
sequence state. -/
theorem Open_reject (a : AEAD) (c : encdecCtx) (ct aad : List Nat)
    (hp : c.poisoned = false)
    (ho : a.openF c.key (computeNonce a c) ct aad = none) :
    Open a c ct aad = .error .authFailure := by
  unfold Open
  rw [if_neg (by simp [hp])]
  simp only [ho]

/-- Open strictly below the message limit returns the plaintext and advances
seq by one. -/
theorem Open_below_limit (a : AEAD) (c : encdecCtx) (ct aad pt : List Nat)
    (hp : c.poisoned = false) (h : c.seq ≠ 2 ^ (8 * a.Nn) - 1)
    (ho : a.openF c.key (computeNonce a c) ct aad = some pt) :
    Open a c ct aad = .ok (pt, { c with seq := c.seq + 1 }) := by
  unfold Open incrementSeq
  rw [if_neg (by simp [hp])]
  simp only [ho]
  rw [if_neg h]

/-- Open at the message limit still returns the plaintext but poisons the
context, leaving seq unchanged. -/
theorem Open_at_limit (a : AEAD) (c : encdecCtx) (ct aad pt : List Nat)
    (hp : c.poisoned = false) (h : c.seq = 2 ^ (8 * a.Nn) - 1)
    (ho : a.openF c.key (computeNonce a c) ct aad = some pt) :
    Open a c ct aad = .ok (pt, { c with poisoned := true }) := by
  unfold Open incrementSeq
  rw [if_neg (by simp [hp])]
  simp only [ho]
  rw [if_pos h]

/-- Inversion for a successful Seal: the context was not poisoned, the
ciphertext is the AEAD's, and seq either advanced by one or was at the limit
and the context got poisoned. -/
theorem Seal_ok_cases (a : AEAD) (c : encdecCtx) (pt aad ct : List Nat)
    (c1 : encdecCtx) (h : Seal a c pt aad = .ok (ct, c1)) :
    c.poisoned = false ∧ ct = a.sealF c.key (computeNonce a c) pt aad ∧
      ((c.seq = 2 ^ (8 * a.Nn) - 1 ∧ c1 = { c with poisoned := true }) ∨
       (c.seq ≠ 2 ^ (8 * a.Nn) - 1 ∧ c1 = { c with seq := c.seq + 1 })) := by
  by_cases hp : c.poisoned = true
  · rw [Seal_poisoned a c pt aad hp] at h
    exact absurd h (by simp)
  · have hp2 : c.poisoned = false := by simpa using hp
    refine ⟨hp2, ?_⟩
    by_cases hs : c.seq = 2 ^ (8 * a.Nn) - 1
    · rw [Seal_at_limit a c pt aad hp2 hs] at h
      simp only [Except.ok.injEq, Prod.mk.injEq] at h
      exact ⟨h.1.symm, Or.inl ⟨hs, h.2.symm⟩⟩
    · rw [Seal_below_limit a c pt aad hp2 hs] at h
      simp only [Except.ok.injEq, Prod.mk.injEq] at h
      exact ⟨h.1.symm, Or.inr ⟨hs, h.2.symm⟩⟩

/-- Inversion for a successful Open: the context was not poisoned, the AEAD
accepted, and seq either advanced by one or was at the limit and the context
got poisoned. -/
theorem Open_ok_cases (a : AEAD) (c : encdecCtx) (ct aad pt : List Nat)
    (c1 : encdecCtx) (h : Open a c ct aad = .ok (pt, c1)) :
    c.poisoned = false ∧ a.openF c.key (computeNonce a c) ct aad = some pt ∧
      ((c.seq = 2 ^ (8 * a.Nn) - 1 ∧ c1 = { c with poisoned := true }) ∨
       (c.seq ≠ 2 ^ (8 * a.Nn) - 1 ∧ c1 = { c with seq := c.seq + 1 })) := by
  by_cases hp : c.poisoned = true
  · rw [Open_poisoned a c ct aad hp] at h
    exact absurd h (by simp)
  · have hp2 : c.poisoned = false := by simpa using hp
    refine ⟨hp2, ?_⟩
    cases ho : a.openF c.key (computeNonce a c) ct aad with
    | none =>
      rw [Open_reject a c ct aad hp2 ho] at h
      exact absurd h (by simp)
    | some pt2 =>
      by_cases hs : c.seq = 2 ^ (8 * a.Nn) - 1
      · rw [Open_at_limit a c ct aad pt2 hp2 hs ho] at h
        simp only [Except.ok.injEq, Prod.mk.injEq] at h
        exact ⟨by rw [h.1], Or.inl ⟨hs, h.2.symm⟩⟩
      · rw [Open_below_limit a c ct aad pt2 hp2 hs ho] at h
        simp only [Except.ok.injEq, Prod.mk.injEq] at h
        exact ⟨by rw [h.1], Or.inr ⟨hs, h.2.symm⟩⟩

/-- One round-trip step: for a correct AEAD, whatever a Seal produced, Open
on the same context state returns the original plaintext and the identical
successor state. -/
theorem seal_open_step (a : AEAD)
    (hA : ∀ key nonce x aad,
      a.openF key nonce (a.sealF key nonce x aad) aad = some x)
    (c : encdecCtx) (pt aad ct : List Nat) (c1 : encdecCtx)
    (h : Seal a c pt aad = .ok (ct, c1)) :
    Open a c ct aad = .ok (pt, c1) := by
  obtain ⟨hp, hct, hcase⟩ := Seal_ok_cases a c pt aad ct c1 h
  have ho : a.openF c.key (computeNonce a c) ct aad = some pt := by
    rw [hct]
    exact hA c.key (computeNonce a c) pt aad
  rcases hcase with ⟨hs, rfl⟩ | ⟨hs, rfl⟩
  · exact Open_at_limit a c ct aad pt hp hs ho
  · exact Open_below_limit a c ct aad pt hp hs ho

/-- In-order round trip over a whole message sequence: opening the sealed
ciphertexts with the same aads from the same starting context recovers every
plaintext and ends in the same final context. -/
theorem sealMany_openMany (a : AEAD)
    (hA : ∀ key nonce x aad,
      a.openF key nonce (a.sealF key nonce x aad) aad = some x) :
    ∀ (msgs : List (List Nat × List Nat)) (c : encdecCtx)
      (cts : List (List Nat)) (cf : encdecCtx),
      sealMany a c msgs = some (cts, cf) →
      openMany a c (cts.zip (msgs.map Prod.snd)) =
        some (msgs.map Prod.fst, cf) := by
  intro msgs
  induction msgs with
  | nil =>
    intro c cts cf h
    simp only [sealMany, Option.some.injEq, Prod.mk.injEq] at h
    obtain ⟨h1, h2⟩ := h
    subst h1
    subst h2
    simp [openMany]
  | cons m rest ih =>
    intro c cts cf h
    obtain ⟨pt, aad⟩ := m
    unfold sealMany at h
    cases hs : Seal a c pt aad with
    | error e => simp [hs] at h
    | ok res =>
      obtain ⟨ct, c1⟩ := res
      simp only [hs] at h
      cases hrest : sealMany a c1 rest with
      | none => simp [hrest] at h
      | some p =>
        obtain ⟨cts2, cf2⟩ := p
        simp only [hrest, Option.some.injEq, Prod.mk.injEq] at h
        obtain ⟨h1, h2⟩ := h
        subst h2
        subst h1
        have ho := seal_open_step a hA c pt aad ct c1 hs
        simp only [List.map_cons, List.zip_cons_cons]
        unfold openMany
        simp only [ho]
        rw [ih c1 cts2 cf2 hrest]

/-- C1: for every valid suite, mode and transcript, when a Sealer context and
an Opener context are derived from the same key-schedule inputs (same suite,
mode, KEM shared secret — i.e. same keys and enc — info and PSK parameters),
processing messages in order round-trips: the i-th Open of the i-th sealed
ciphertext with the same aad returns the original plaintext, for the whole
sequence of Seal outputs.  The AEAD hypothesis is the collaborator's
correctness contract. -/
theorem C1_round_trip (a : AEAD) (kdf : KDF) (su : Suite) (mode : Nat)
    (ss info psk pskID : List Nat) (ctxS ctxR : encdecCtx)
    (hA : ∀ key nonce x aad,
      a.openF key nonce (a.sealF key nonce x aad) aad = some x)
    (hksS : keySchedule kdf a su mode ss info psk pskID = .ok ctxS)
    (hksR : keySchedule kdf a su mode ss info psk pskID = .ok ctxR)
    (msgs : List (List Nat × List Nat)) (cts : List (List Nat))
    (cf : encdecCtx) (hseal : sealMany a ctxS msgs = some (cts, cf)) :
    openMany a ctxR (cts.zip (msgs.map Prod.snd)) =
      some (msgs.map Prod.fst, cf) := by
  have hctx : ctxS = ctxR := by
    rw [hksS] at hksR
    exact Except.ok.inj hksR
  subst hctx
  exact sealMany_openMany a hA msgs ctxS cts cf hseal

/-- Closed instance of C1: two messages sealed in order by the sample
contexts open back to themselves. -/
theorem C1_witness :
    openMany toyAead toyCtx [([2], [3]), ([4], [5])] =
      some ([[2], [4]], { toyCtx with seq := 2 }) :=
  C1_round_trip toyAead toyKdf toySuite 0 [] [] [] [] toyCtx toyCtx
    (fun _ _ _ _ => rfl) rfl rfl [([2], [3]), ([4], [5])]
    [[2], [4]] { toyCtx with seq := 2 } rfl

/-- Starting unpoisoned with exactly `2^(8·Nn) - seq` messages left, sealing
them all succeeds and ends at the limit, poisoned. -/
theorem sealMany_reaches_limit (a : AEAD) :
    ∀ (msgs : List (List Nat × List Nat)) (c : encdecCtx),
      c.poisoned = false → msgs ≠ [] →
      c.seq + msgs.length = 2 ^ (8 * a.Nn) →
      ∃ cts cf, sealMany a c msgs = some (cts, cf) ∧
        cf.seq = 2 ^ (8 * a.Nn) - 1 ∧ cf.poisoned = true := by
  intro msgs
  induction msgs with
  | nil =>
    intro c _ hne _
    exact absurd rfl hne
  | cons m rest ih =>
    intro c hp _ hsum
    obtain ⟨pt, aad⟩ := m
    have hN : 0 < 2 ^ (8 * a.Nn) := pow_pos (by norm_num) _
    rcases eq_or_ne rest [] with hr | hr
    · subst hr
      have hseq : c.seq = 2 ^ (8 * a.Nn) - 1 := by
        simp only [List.length_cons, List.length_nil] at hsum
        omega
      refine ⟨[a.sealF c.key (computeNonce a c) pt aad],
              { c with poisoned := true }, ?_, ?_, rfl⟩
      · unfold sealMany
        rw [Seal_at_limit a c pt aad hp hseq]
        simp [sealMany]
      · show c.seq = 2 ^ (8 * a.Nn) - 1
        exact hseq
    · have hlen : rest.length ≠ 0 := by simpa using hr
      have hseq : c.seq ≠ 2 ^ (8 * a.Nn) - 1 := by
        simp only [List.length_cons] at hsum
        omega
      have hstep := Seal_below_limit a c pt aad hp hseq
      have hrec := ih { c with seq := c.seq + 1 } hp hr
        (by
          show c.seq + 1 + rest.length = 2 ^ (8 * a.Nn)
          simp only [List.length_cons] at hsum
          omega)
      obtain ⟨cts, cf, hmany, h1, h2⟩ := hrec
      refine ⟨a.sealF c.key (computeNonce a c) pt aad :: cts, cf, ?_, h1, h2⟩
      unfold sealMany
      rw [hstep]
      simp [hmany]

/-- C2: the sequence counter starts at 0 and stays below `2^(8·Nn)`; every
successful Seal/Open below the limit advances it by exactly one;
`increment_seq` at `2^(8·Nn) - 1` fails with `MessageLimitReached` without
incrementing; at the limit a Seal returns its ciphertext but leaves seq
unchanged and permanently poisons the context; poisoned contexts always fail;
and after exactly `2^(8·Nn)` successful Seals every further Seal fails with
`MessageLimitReached`. -/
theorem C2_seq_lifecycle (a : AEAD) :
    (∀ (kdf : KDF) (su : Suite) (mode : Nat) (ss info psk pskID : List Nat)
        (c : encdecCtx),
      keySchedule kdf a su mode ss info psk pskID = .ok c →
      c.seq = 0 ∧ c.poisoned = false) ∧
    (∀ (c : encdecCtx) (pt aad ct : List Nat) (c1 : encdecCtx),
      c.seq < 2 ^ (8 * a.Nn) → Seal a c pt aad = .ok (ct, c1) →
      c1.seq < 2 ^ (8 * a.Nn)) ∧
    (∀ (c : encdecCtx) (ct aad pt : List Nat) (c1 : encdecCtx),
      c.seq < 2 ^ (8 * a.Nn) → Open a c ct aad = .ok (pt, c1) →
      c1.seq < 2 ^ (8 * a.Nn)) ∧
    (∀ c : encdecCtx, c.seq = 2 ^ (8 * a.Nn) - 1 →
      incrementSeq a c = .error .messageLimitReached) ∧
    (∀ c : encdecCtx, c.seq ≠ 2 ^ (8 * a.Nn) - 1 →
      incrementSeq a c = .ok { c with seq := c.seq + 1 }) ∧
    (∀ (c : encdecCtx) (pt aad ct : List Nat) (c1 : encdecCtx),
      Seal a c pt aad = .ok (ct, c1) → c.seq ≠ 2 ^ (8 * a.Nn) - 1 →
      c1.seq = c.seq + 1) ∧
    (∀ (c : encdecCtx) (ct aad pt : List Nat) (c1 : encdecCtx),
      Open a c ct aad = .ok (pt, c1) → c.seq ≠ 2 ^ (8 * a.Nn) - 1 →
      c1.seq = c.seq + 1) ∧
    (∀ (c : encdecCtx) (pt aad ct : List Nat) (c1 : encdecCtx),
      Seal a c pt aad = .ok (ct, c1) → c.seq = 2 ^ (8 * a.Nn) - 1 →
      c1.seq = c.seq ∧ c1.poisoned = true) ∧
    (∀ (c : encdecCtx) (x aad : List Nat), c.poisoned = true →
      Seal a c x aad = .error .messageLimitReached ∧
      Open a c x aad = .error .messageLimitReached) ∧
    (∀ (c : encdecCtx) (msgs : List (List Nat × List Nat)),
      c.seq = 0 → c.poisoned = false → msgs.length = 2 ^ (8 * a.Nn) →
      ∃ cts cf, sealMany a c msgs = some (cts, cf) ∧
        cf.seq = 2 ^ (8 * a.Nn) - 1 ∧ cf.poisoned = true ∧
        ∀ pt aad, Seal a cf pt aad = .error .messageLimitReached) := by
  have hN : 0 < 2 ^ (8 * a.Nn) := pow_pos (by norm_num) _
  refine ⟨?_, ?_, ?_, ?_, ?_, ?_, ?_, ?_, ?_, ?_⟩
  · intro kdf su mode ss info psk pskID c h
    unfold keySchedule at h
    by_cases hok : pskInputsOK mode psk pskID = false
    · rw [if_pos hok] at h
      exact absurd h (by simp)
    · rw [if_neg hok] at h
      obtain rfl := Except.ok.inj h
      exact ⟨rfl, rfl⟩
  · intro c pt aad ct c1 hlt h
    obtain ⟨-, -, hc⟩ := Seal_ok_cases a c pt aad ct c1 h
    rcases hc with ⟨hs, rfl⟩ | ⟨hs, rfl⟩
    · exact hlt
    · show c.seq + 1 < 2 ^ (8 * a.Nn)
      omega
  · intro c ct aad pt c1 hlt h
    obtain ⟨-, -, hc⟩ := Open_ok_cases a c ct aad pt c1 h
    rcases hc with ⟨hs, rfl⟩ | ⟨hs, rfl⟩
    · exact hlt
    · show c.seq + 1 < 2 ^ (8 * a.Nn)
      omega
  · intro c h
    unfold incrementSeq
    rw [if_pos h]
  · intro c h
    unfold incrementSeq
    rw [if_neg h]
  · intro c pt aad ct c1 h hs
    obtain ⟨-, -, hc⟩ := Seal_ok_cases a c pt aad ct c1 h
    rcases hc with ⟨hs2, rfl⟩ | ⟨-, rfl⟩
    · exact absurd hs2 hs
    · rfl
  · intro c ct aad pt c1 h hs
    obtain ⟨-, -, hc⟩ := Open_ok_cases a c ct aad pt c1 h
    rcases hc with ⟨hs2, rfl⟩ | ⟨-, rfl⟩
    · exact absurd hs2 hs
    · rfl
  · intro c pt aad ct c1 h hs
    obtain ⟨-, -, hc⟩ := Seal_ok_cases a c pt aad ct c1 h
    rcases hc with ⟨-, rfl⟩ | ⟨hs2, rfl⟩
    · exact ⟨rfl, rfl⟩
    · exact absurd hs hs2
  · intro c x aad hp
    exact ⟨Seal_poisoned a c x aad hp, Open_poisoned a c x aad hp⟩
  · intro c msgs h0 hp hlen
    have hne : msgs ≠ [] := by
      intro he
      rw [he] at hlen
      simp only [List.length_nil] at hlen
      omega
    obtain ⟨cts, cf, hmany, h1, h2⟩ :=
      sealMany_reaches_limit a msgs c hp hne (by omega)
    exact ⟨cts, cf, hmany, h1, h2, fun pt aad => Seal_poisoned a cf pt aad h2⟩

/-- Closed instance of C2, with a zero-length nonce so the limit is
`2^0 = 1`: increment at the limit fails, and after one successful Seal every
further Seal fails with `MessageLimitReached` on the poisoned context. -/
theorem C2_witness :
    incrementSeq toyAead0 toyCtx = .error .messageLimitReached ∧
    (∃ cts cf, sealMany toyAead0 toyCtx [([1], [2])] = some (cts, cf) ∧
      cf.seq = 2 ^ (8 * toyAead0.Nn) - 1 ∧ cf.poisoned = true ∧
      ∀ pt aad, Seal toyAead0 cf pt aad = .error .messageLimitReached) := by
  have h := C2_seq_lifecycle toyAead0
  exact ⟨h.2.2.2.1 toyCtx (by decide),
         h.2.2.2.2.2.2.2.2.2 toyCtx [([1], [2])] rfl rfl (by decide)⟩

/-- C8 counterexample: the claim that a second Setup* call on the same
Sender is disallowed is false: on the sample Sender a base-mode Setup
succeeds, a second Setup on the same (mutated) object succeeds as well and
yields a usable Sealer context, with which Seal succeeds. -/
theorem C8_counterexample :
    (toySender.Setup toyKem toyKdf toyAead).snd = .ok ([9], toyCtx) ∧
    ((toySender.Setup toyKem toyKdf toyAead).fst.Setup toyKem toyKdf
        toyAead).snd = .ok ([9], toyCtx) ∧
    Seal toyAead toyCtx [1] [2] = .ok ([1], { toyCtx with seq := 1 }) :=
  ⟨rfl, rfl, rfl⟩

/-- C8 amended: the code does not enforce the one-way
Fresh → ModeSet → Finalized machine: a second Setup* call on an
already-set-up Sender is accepted and behaves exactly as a fresh setup on
the updated state, overwriting the mode and yielding another usable
context (repeating base-mode Setup reproduces the first call verbatim). -/
theorem C8_resetup_allowed (s : Sender) (k : KEMScheme) (kdf : KDF) (a : AEAD)
    (skS : Option (List Nat)) (psk pskID : List Nat) :
    (s.Setup k kdf a).fst.Setup k kdf a = s.Setup k kdf a ∧
    (s.Setup k kdf a).fst.SetupPSK psk pskID k kdf a =
      (s.buildBase.buildPSK psk pskID,
       (s.buildBase.buildPSK psk pskID).allSetup k kdf a) ∧
    (s.SetupAuth skS k kdf a).fst.SetupPSK psk pskID k kdf a =
      ((s.buildAuth skS).buildPSK psk pskID,
       ((s.buildAuth skS).buildPSK psk pskID).allSetup k kdf a) :=
  ⟨rfl, rfl, rfl⟩

end Hpke
